import Mathlib

/-!
Shallow embedding of the TaxiAppPWr/location-service repository (Go).

The service keeps three derived views of driver state in Redis:
a per-driver detail record (string key with a 1-minute TTL), a shared
geospatial index (`driver_locations`), and an active-driver set
(`active_drivers`).  The embedding models the Redis keyspace as three
maps, the pipelined commands issued by the handlers as explicit command
lists, and the HTTP handlers `UpdateDriverLocation`, `FindNearbyDrivers`
and `GetDriver` (src/api.go) plus the expiration listener
(src/main.go, `setupExpirationListener`) as pure functions over that
state.  Coordinates, distances and radii are `float64` in Go; the claims
under study are about data flow, ordering and control flow, none about
floating-point rounding, so they are modelled as rationals.  Time is
seconds since an arbitrary origin (`Nat`); the 1-minute TTL is 60.
Infrastructure failures of individual Redis calls (which Go surfaces as
non-nil errors) are modelled by explicit failure flags.
-/

namespace LocationService

/-- `Driver` struct from src/api.go (lines 14-20).  `lastPing` is a
timestamp, modelled as seconds (`Nat`). -/
structure Driver where
  id : String
  isActive : Bool
  latitude : Rat
  longitude : Rat
  lastPing : Nat
deriving DecidableEq

/-- `LocationUpdate` struct from src/api.go (lines 22-27). -/
structure LocationUpdate where
  driverID : String
  latitude : Rat
  longitude : Rat
  isActive : Bool
deriving DecidableEq

/-- `NearbyRequest` struct from src/api.go (lines 29-34): radius in km,
limit caps the number of drivers.  `limit` is a Go `int`, hence `Int`. -/
structure NearbyRequest where
  latitude : Rat
  longitude : Rat
  radius : Rat
  limit : Int
deriving DecidableEq

/-- Key of the shared geospatial index (src/api.go line 37). -/
def GeoSetKey : String := "driver_locations"

/-- Key prefix of the per-driver detail records (src/api.go line 38). -/
def DriverPrefix : String := "driver:"

/-- Key of the active-driver set (src/api.go line 39). -/
def ActiveSetKey : String := "active_drivers"

/-- A value stored at a string key: either the JSON serialization of a
`Driver` (what `json.Marshal` produces in `UpdateDriverLocation`), or
any other byte string, on which `json.Unmarshal` into `Driver` fails. -/
inductive StoredValue where
  | driverJson (d : Driver)
  | malformed (raw : String)
deriving DecidableEq

/-- `json.Unmarshal` of a stored value into a `Driver` (src/api.go
lines 170-171 and 215-216): succeeds exactly on serialized drivers. -/
def unmarshalDriver : StoredValue → Option Driver
  | .driverJson d => some d
  | .malformed _ => none

/-- The Redis keyspace as seen by this service: string keys with an
absolute expiry deadline (detail records written with `SET ... EX`),
geo/sorted-set members with coordinates, and plain set members. -/
structure Store where
  details : String → Option (StoredValue × Nat)
  geo : String → String → Option (Rat × Rat)
  sets : String → String → Bool

/-- The store with no keys. -/
def Store.empty : Store :=
  { details := fun _ => none, geo := fun _ _ => none, sets := fun _ _ => false }

/-- The Redis commands the service issues through pipelines:
`SET key value EX ttl`, `GEOADD`, `SADD`, `SREM`, `ZREM`. -/
inductive RedisCmd where
  | set (key : String) (value : StoredValue) (ttlSeconds : Nat)
  | geoAdd (key : String) (member : String) (longitude latitude : Rat)
  | sAdd (key : String) (member : String)
  | sRem (key : String) (member : String)
  | zRem (key : String) (member : String)
deriving DecidableEq

/-- Effect of one Redis command on the keyspace at time `now`.
`SET` overwrites the previous value and resets the expiry deadline to
`now + ttl`; `GEOADD` upserts the member's coordinates; `SADD`/`SREM`
add/remove set members; `ZREM` removes a member from a sorted set
(the geo index is a sorted set, so `ZREM` acts on `geo`). -/
def execCmd (now : Nat) (s : Store) : RedisCmd → Store
  | .set key v ttl =>
      { s with details := fun k => if k = key then some (v, now + ttl) else s.details k }
  | .geoAdd key m lon lat =>
      { s with geo := fun k m2 => if k = key ∧ m2 = m then some (lon, lat) else s.geo k m2 }
  | .sAdd key m =>
      { s with sets := fun k m2 => if k = key ∧ m2 = m then true else s.sets k m2 }
  | .sRem key m =>
      { s with sets := fun k m2 => if k = key ∧ m2 = m then false else s.sets k m2 }
  | .zRem key m =>
      { s with geo := fun k m2 => if k = key ∧ m2 = m then none else s.geo k m2 }

/-- Executing a pipelined batch of commands in issue order. -/
def execPipe (now : Nat) (s : Store) (cmds : List RedisCmd) : Store :=
  cmds.foldl (execCmd now) s

/-- The `Driver` snapshot built from an update in `UpdateDriverLocation`
(src/api.go lines 65-71), with `lastPing` = current time. -/
def driverOfUpdate (now : Nat) (u : LocationUpdate) : Driver :=
  { id := u.driverID, latitude := u.latitude, longitude := u.longitude,
    isActive := u.isActive, lastPing := now }

/-- The pipeline built by `UpdateDriverLocation` (src/api.go lines
73-94): `SET driver:<id> <json> EX 60`, `GEOADD driver_locations`,
then `SADD`/`SREM` on `active_drivers` according to `isActive`. -/
def upsertPipeline (now : Nat) (u : LocationUpdate) : List RedisCmd :=
  [ RedisCmd.set (DriverPrefix ++ u.driverID) (.driverJson (driverOfUpdate now u)) 60,
    RedisCmd.geoAdd GeoSetKey u.driverID u.longitude u.latitude,
    if u.isActive then RedisCmd.sAdd ActiveSetKey u.driverID
    else RedisCmd.sRem ActiveSetKey u.driverID ]

/-- State effect of a successful `UpdateDriverLocation` batch. -/
def upsert (s : Store) (now : Nat) (u : LocationUpdate) : Store :=
  execPipe now s (upsertPipeline now u)

/-- The `UpdateDriverLocation` handler after JSON decoding (src/api.go
lines 63-103): builds and executes the pipeline; the only error after a
well-formed payload is a failed `pipe.Exec`, modelled by `execFails`
(serialization of a `Driver` cannot fail).  On success it responds 200. -/
def updateDriverLocation (s : Store) (now : Nat) (u : LocationUpdate)
    (execFails : Bool) : Except String Store :=
  if execFails then .error "Redis operation failed"
  else .ok (upsert s now u)

/-- A live read of a string key at time `now`: present while the expiry
deadline has not passed. -/
def getValue (s : Store) (now : Nat) (key : String) : Option StoredValue :=
  match s.details key with
  | some (v, deadline) => if now < deadline then some v else none
  | none => none

/-- The `GetDriver` handler (src/api.go lines 198-222): `GET
driver:<id>`, 404 on `redis.Nil`, parse failure is a 500. -/
def getDriver (s : Store) (now : Nat) (driverID : String) : Except String Driver :=
  match getValue s now (DriverPrefix ++ driverID) with
  | none => .error "Driver not found"
  | some v =>
      match unmarshalDriver v with
      | none => .error "Failed to parse driver data"
      | some d => .ok d

/-- One element of a `GEORADIUS ... WITHCOORD WITHDIST` reply
(`redis.GeoLocation`): member name, coordinates, distance in km. -/
structure GeoLocation where
  name : String
  longitude : Rat
  latitude : Rat
  dist : Rat
deriving DecidableEq

/-- `redis.GeoRadiusQuery` as populated in `FindNearbyDrivers`
(src/api.go lines 123-131). -/
structure GeoRadiusQuery where
  radius : Rat
  unit : String
  withCoord : Bool
  withDist : Bool
  withGeoHash : Bool
  count : Int
  sort : String
deriving DecidableEq

/-- The geo options `FindNearbyDrivers` passes to `GeoRadius`, built
from the (already defaulted) request. -/
def geoOptions (req : NearbyRequest) : GeoRadiusQuery :=
  { radius := req.radius, unit := "km", withCoord := true, withDist := true,
    withGeoHash := false, count := req.limit, sort := "ASC" }

/-- One entry of the response array `activeDrivers`: the Go code emits a
`map[string]interface{}` with keys id/distance/latitude/longitude/isActive
and, only on the enriched path, lastPing. -/
structure DriverSummary where
  id : String
  distance : Rat
  latitude : Rat
  longitude : Rat
  isActive : Bool
  lastPing : Option Nat
deriving DecidableEq

/-- The summary emitted when the detail fetch or its parse fails
(src/api.go lines 160-166 and 172-178): geo-index coordinates and
distance, `isActive` hard-coded to `true`, no `lastPing` key. -/
def fallbackSummary (loc : GeoLocation) : DriverSummary :=
  { id := loc.name, distance := loc.dist, latitude := loc.latitude,
    longitude := loc.longitude, isActive := true, lastPing := none }

/-- The summary emitted when the detail record parses (src/api.go lines
182-189): fields from the parsed `Driver`, distance from the geo index. -/
def enrichedSummary (loc : GeoLocation) (d : Driver) : DriverSummary :=
  { id := d.id, distance := loc.dist, latitude := d.latitude,
    longitude := d.longitude, isActive := d.isActive, lastPing := some d.lastPing }

/-- Per-candidate infrastructure failures inside the `FindNearbyDrivers`
loop: `memFail` makes `SIsMember` return an error, `getFail` makes `GET`
return a non-`Nil` error. -/
structure Fault where
  memFail : Bool
  getFail : Bool
deriving DecidableEq

/-- One iteration of the candidate loop in `FindNearbyDrivers`
(src/api.go lines 148-193).  `SIsMember` error: `continue` with no
output.  Member absent from `active_drivers`: no output.  Member
present: `GET driver:<id>`; any error (including `redis.Nil` for an
absent/expired record) yields the fallback summary, a failed
`json.Unmarshal` yields the fallback summary, a parsed record yields the
enriched summary. -/
def processOne (s : Store) (now : Nat) (f : Fault) (loc : GeoLocation) :
    Option DriverSummary :=
  if f.memFail then none
  else if s.sets ActiveSetKey loc.name then
    match (if f.getFail then none else getValue s now (DriverPrefix ++ loc.name)) with
    | none => some (fallbackSummary loc)
    | some v =>
        match unmarshalDriver v with
        | none => some (fallbackSummary loc)
        | some d => some (enrichedSummary loc d)
  else none

/-- The whole candidate loop, in the order `GeoRadius` returned the
locations; faults are looked up per member name. -/
def processLocations (s : Store) (now : Nat) (faults : String → Fault)
    (locs : List GeoLocation) : List DriverSummary :=
  locs.filterMap (fun loc => processOne s now (faults loc.name) loc)

/-- The request after the two zero-defaults of src/api.go lines
113-119: radius 0 becomes 5, limit 0 becomes 10. -/
def defaultedRequest (req : NearbyRequest) : NearbyRequest :=
  let req1 := if req.radius = 0 then { req with radius := 5 } else req
  if req1.limit = 0 then { req1 with limit := 10 } else req1

/-- The `FindNearbyDrivers` handler after JSON decoding (src/api.go
lines 113-196).  The two zero-defaults are applied to the request, the
geo options are built, and `GeoRadius` is called: Redis's radius search
is external, so it is a parameter `geoRadius` of the model, receiving
the store, the query longitude and latitude, and the options; its
request-level failure is the flag `geoFails` (the only error source
after a well-formed payload).  The candidate loop never errors. -/
def findNearbyDrivers
    (geoRadius : Store → Rat → Rat → GeoRadiusQuery → List GeoLocation)
    (geoFails : Bool) (s : Store) (now : Nat) (faults : String → Fault)
    (req : NearbyRequest) : Except String (List DriverSummary) :=
  let req2 := defaultedRequest req
  if geoFails then .error "Geospatial query failed"
  else
    let locations := geoRadius s req2.longitude req2.latitude (geoOptions req2)
    .ok (processLocations s now faults locations)

/-- Go's `strings.HasPrefix s p`: `s` begins with `p`. -/
def hasPrefixStr (s p : String) : Bool := s.take p.length == p

/-- Go's `strings.TrimPrefix s p`: `s` without the leading `p`, or `s`
unchanged when `p` is not a prefix. -/
def trimPrefixStr (s p : String) : String :=
  if hasPrefixStr s p then s.drop p.length else s

/-- The pipeline issued by the expiration listener for an expired key
carrying the detail-record prefix (src/main.go lines 57-65): `ZREM` the
stripped id from the geo index and `SREM` it from the active set; a key
without the prefix issues nothing. -/
def reaperPipeline (key : String) : List RedisCmd :=
  if hasPrefixStr key DriverPrefix then
    let driverID := trimPrefixStr key DriverPrefix
    [RedisCmd.zRem GeoSetKey driverID, RedisCmd.sRem ActiveSetKey driverID]
  else []

/-- Processing of one expiration notification (src/main.go lines 55-71):
execute the cleanup batch; if `pipe.Exec` fails the error is only
logged and the state is left as is (`execFails`), with no retry.  The
handler is total: it never aborts the listener. -/
def reaperHandle (s : Store) (now : Nat) (key : String) (execFails : Bool) : Store :=
  if execFails then s else execPipe now s (reaperPipeline key)

/-- The listener goroutine of `setupExpirationListener`: drain the
channel of expiration messages, one `reaperHandle` per message. -/
def reaperListen (s : Store) (msgs : List (Nat × String × Bool)) : Store :=
  msgs.foldl (fun st m => reaperHandle st m.1 m.2.1 m.2.2) s

/-- One externally visible event touching the keyspace: a driver
location update (whole batch applied, or nothing when `pipe.Exec`
fails), a key-expiration notification processed by the reaper, or Redis
dropping an expired string key. -/
inductive Event where
  | upd (now : Nat) (u : LocationUpdate) (execFails : Bool)
  | notifyExpired (now : Nat) (key : String) (execFails : Bool)
  | keyExpire (key : String)

/-- Transition of the keyspace under one event. -/
def step (s : Store) : Event → Store
  | .upd now u execFails => if execFails then s else upsert s now u
  | .notifyExpired now key execFails => reaperHandle s now key execFails
  | .keyExpire key =>
      { s with details := fun k => if k = key then none else s.details k }

/-- Running a sequence of events from a state. -/
def run (s : Store) (es : List Event) : Store := es.foldl step s

/-! ### Concrete fixtures

A store in which driver `d1` is active, its detail record holds
coordinates (10, 20), while the geo index places `d1` at (30, 40):
the situation after the detail record and the geo index have diverged
(e.g. a partially applied update batch, which §4.1 of the spec admits). -/

/-- A parsed detail record for `d1` with coordinates (10, 20). -/
def cexDriver : Driver :=
  { id := "d1", isActive := true, latitude := 10, longitude := 20, lastPing := 0 }

/-- A geo-index candidate for `d1` at coordinates (30, 40), 1/2 km away. -/
def cexLoc : GeoLocation :=
  { name := "d1", longitude := 40, latitude := 30, dist := 1/2 }

/-- The store described above: `d1` active, detail record live until
time 100, geo coordinates (30, 40). -/
def cexStore : Store :=
  { details := fun k => if k = "driver:d1" then some (.driverJson cexDriver, 100) else none,
    geo := fun k m => if k = GeoSetKey ∧ m = "d1" then some ((40 : Rat), (30 : Rat)) else none,
    sets := fun k m => k == ActiveSetKey && m == "d1" }

/-! ### Helper lemmas on the store operations -/

lemma upsert_details_self (s : Store) (now : Nat) (u : LocationUpdate) :
    (upsert s now u).details (DriverPrefix ++ u.driverID)
      = some (.driverJson (driverOfUpdate now u), now + 60) := by
  cases h : u.isActive <;>
    simp [upsert, execPipe, upsertPipeline, execCmd, h]

lemma upsert_geo_self (s : Store) (now : Nat) (u : LocationUpdate) :
    (upsert s now u).geo GeoSetKey u.driverID = some (u.longitude, u.latitude) := by
  cases h : u.isActive <;>
    simp [upsert, execPipe, upsertPipeline, execCmd, h]

lemma upsert_sets_self (s : Store) (now : Nat) (u : LocationUpdate) :
    (upsert s now u).sets ActiveSetKey u.driverID = u.isActive := by
  cases h : u.isActive <;>
    simp [upsert, execPipe, upsertPipeline, execCmd, h]

lemma upsert_sets_other (s : Store) (now : Nat) (u : LocationUpdate)
    (k d : String) (hd : d ≠ u.driverID) :
    (upsert s now u).sets k d = s.sets k d := by
  cases h : u.isActive <;>
    simp [upsert, execPipe, upsertPipeline, execCmd, h, hd]

lemma reaperHandle_sets_false (s : Store) (now : Nat) (key : String)
    (ef : Bool) (d : String) (h : s.sets ActiveSetKey d = false) :
    (reaperHandle s now key ef).sets ActiveSetKey d = false := by
  cases ef with
  | true => simpa [reaperHandle] using h
  | false =>
      by_cases hp : hasPrefixStr key DriverPrefix <;>
        simp [reaperHandle, reaperPipeline, hp, execPipe, execCmd, h]

lemma step_sets_false (s : Store) (e : Event) (d : String)
    (h : s.sets ActiveSetKey d = false)
    (he : ∀ t u' f, e = Event.upd t u' f → u'.driverID ≠ d) :
    (step s e).sets ActiveSetKey d = false := by
  cases e with
  | upd t u' f =>
      have hne : u'.driverID ≠ d := he t u' f rfl
      cases f with
      | true => simpa [step] using h
      | false =>
          simpa [step, upsert_sets_other s t u' ActiveSetKey d (Ne.symm hne)] using h
  | notifyExpired t key f => simpa [step] using reaperHandle_sets_false s t key f d h
  | keyExpire key => simpa [step] using h

lemma run_sets_false (es : List Event) (s : Store) (d : String)
    (h : s.sets ActiveSetKey d = false)
    (he : ∀ e ∈ es, ∀ t u' f, e = Event.upd t u' f → u'.driverID ≠ d) :
    (run s es).sets ActiveSetKey d = false := by
  induction es generalizing s with
  | nil => simpa [run] using h
  | cons e es ih =>
      have h1 : (step s e).sets ActiveSetKey d = false :=
        step_sets_false s e d h (he e (List.mem_cons_self e es))
      have he' : ∀ e' ∈ es, ∀ t u' f, e' = Event.upd t u' f → u'.driverID ≠ d :=
        fun e' hmem => he e' (List.mem_cons_of_mem e hmem)
      simpa [run] using ih (step s e) h1 he'

/-! ### Helper lemmas on the candidate loop -/

lemma processOne_memFail (s : Store) (now : Nat) (f : Fault)
    (loc : GeoLocation) (h : f.memFail = true) :
    processOne s now f loc = none := by
  simp [processOne, h]

lemma processOne_inactive (s : Store) (now : Nat) (f : Fault)
    (loc : GeoLocation) (h : s.sets ActiveSetKey loc.name = false) :
    processOne s now f loc = none := by
  by_cases hm : f.memFail <;> simp [processOne, hm, h]

lemma processOne_dist (s : Store) (now : Nat) (f : Fault)
    (loc : GeoLocation) (r : DriverSummary)
    (h : processOne s now f loc = some r) : r.distance = loc.dist := by
  unfold processOne at h
  repeat' split at h
  all_goals cases h
  all_goals rfl

lemma processLocations_dist_sublist (s : Store) (now : Nat)
    (faults : String → Fault) (locs : List GeoLocation) :
    ((processLocations s now faults locs).map DriverSummary.distance).Sublist
      (locs.map GeoLocation.dist) := by
  induction locs with
  | nil => simp [processLocations]
  | cons loc rest ih =>
      rcases h : processOne s now (faults loc.name) loc with _ | r
      · have hs : processLocations s now faults (loc :: rest)
            = processLocations s now faults rest := by
          simp [processLocations, h]
        rw [hs, List.map_cons]
        exact List.Sublist.cons _ ih
      · have hd : r.distance = loc.dist := processOne_dist s now _ loc r h
        have hs : processLocations s now faults (loc :: rest)
            = r :: processLocations s now faults rest := by
          simp [processLocations, h]
        rw [hs, List.map_cons, List.map_cons, hd]
        exact List.Sublist.cons₂ _ ih

lemma processLocations_length_le (s : Store) (now : Nat)
    (faults : String → Fault) (locs : List GeoLocation) :
    (processLocations s now faults locs).length ≤ locs.length :=
  List.length_filterMap_le _ _

lemma processLocations_drop_name (s : Store) (now : Nat)
    (faults : String → Fault) (locs : List GeoLocation) (d : String)
    (h : s.sets ActiveSetKey d = false) :
    processLocations s now faults locs
      = processLocations s now faults (locs.filter fun l => l.name != d) := by
  induction locs with
  | nil => rfl
  | cons loc rest ih =>
      by_cases hn : loc.name = d
      · have hdrop : processOne s now (faults loc.name) loc = none :=
          processOne_inactive s now _ loc (hn ▸ h)
        have : (loc.name != d) = false := by simp [hn]
        simp [processLocations, hdrop, List.filter, this] at ih ⊢
        exact ih
      · have : (loc.name != d) = true := by simp [hn]
        simp [processLocations, List.filter, this] at ih ⊢
        rcases hp : processOne s now (faults loc.name) loc with _ | r <;>
          simp [hp, ih]

/-! ### Claim theorems -/

/-- C5: Every upsert issues exactly three operations as one batch; the
batch writes the serialized Driver snapshot (its `lastPing` the current
time) as the detail record with a 1-minute (60 s) expiry, overwriting
any previous value and resetting the expiry deadline to `now + 60`;
it upserts the driver's coordinates into the shared geo-index under its
id; and it sets active-set membership to the update's `isActive` flag
(added when true, removed when false). -/
theorem upsert_three_ops (s : Store) (now : Nat) (u : LocationUpdate) :
    (upsertPipeline now u).length = 3
    ∧ (driverOfUpdate now u).lastPing = now
    ∧ (upsert s now u).details (DriverPrefix ++ u.driverID)
        = some (.driverJson (driverOfUpdate now u), now + 60)
    ∧ (upsert s now u).geo GeoSetKey u.driverID = some (u.longitude, u.latitude)
    ∧ (upsert s now u).sets ActiveSetKey u.driverID = u.isActive :=
  ⟨rfl, rfl, upsert_details_self s now u, upsert_geo_self s now u,
    upsert_sets_self s now u⟩

/-- C7: `queryNearby` with radius 0 behaves identically to the same
query with radius 5, and with limit 0 identically to the same query
with limit 10, for every store, fault pattern and geo-radius backend. -/
theorem radius_limit_defaults
    (geoRadius : Store → Rat → Rat → GeoRadiusQuery → List GeoLocation)
    (geoFails : Bool) (s : Store) (now : Nat) (faults : String → Fault)
    (lat lon radius : Rat) (limit : Int) :
    findNearbyDrivers geoRadius geoFails s now faults
        { latitude := lat, longitude := lon, radius := 0, limit := limit }
      = findNearbyDrivers geoRadius geoFails s now faults
          { latitude := lat, longitude := lon, radius := 5, limit := limit }
    ∧ findNearbyDrivers geoRadius geoFails s now faults
        { latitude := lat, longitude := lon, radius := radius, limit := 0 }
      = findNearbyDrivers geoRadius geoFails s now faults
          { latitude := lat, longitude := lon, radius := radius, limit := 10 } := by
  constructor
  · by_cases hl : limit = 0 <;> simp [findNearbyDrivers, defaultedRequest, hl]
  · by_cases hr : radius = 0 <;> simp [findNearbyDrivers, defaultedRequest, hr]

/-- C9: When the active-set membership check for a candidate fails with
a store error, the candidate is silently skipped: it contributes no
summary (neither enriched nor fallback), the loop continues with the
remaining candidates, and the request still succeeds. -/
theorem memcheck_error_skips (s : Store) (now : Nat) (faults : String → Fault)
    (loc : GeoLocation) (rest : List GeoLocation)
    (geoRadius : Store → Rat → Rat → GeoRadiusQuery → List GeoLocation)
    (req : NearbyRequest)
    (h : (faults loc.name).memFail = true) :
    processOne s now (faults loc.name) loc = none
    ∧ processLocations s now faults (loc :: rest) = processLocations s now faults rest
    ∧ ∃ l, findNearbyDrivers geoRadius false s now faults req = Except.ok l := by
  refine ⟨processOne_memFail s now _ loc h, ?_, ⟨_, rfl⟩⟩
  simp [processLocations, processOne_memFail s now _ loc h]

/-- C10: `upsert` validates nothing about the driver id: with the empty
id the handler still reports success (when the batch itself succeeds),
the batch still has its three operations, the detail record is stored
under the bare prefix key `"driver:"`, the geo index gains a member
named `""`, and the active set is updated for `""`. -/
theorem upsert_empty_id (s : Store) (now : Nat) (lat lon : Rat) (act : Bool) :
    updateDriverLocation s now
        { driverID := "", latitude := lat, longitude := lon, isActive := act } false
      = .ok (upsert s now
          { driverID := "", latitude := lat, longitude := lon, isActive := act })
    ∧ (upsertPipeline now
        { driverID := "", latitude := lat, longitude := lon, isActive := act }).length = 3
    ∧ (upsert s now
        { driverID := "", latitude := lat, longitude := lon, isActive := act }).details
          "driver:"
        = some (.driverJson
            { id := "", isActive := act, latitude := lat, longitude := lon,
              lastPing := now }, now + 60)
    ∧ (upsert s now
        { driverID := "", latitude := lat, longitude := lon, isActive := act }).geo
          GeoSetKey "" = some (lon, lat)
    ∧ (upsert s now
        { driverID := "", latitude := lat, longitude := lon, isActive := act }).sets
          ActiveSetKey "" = act :=
  ⟨rfl, rfl,
    upsert_details_self s now
      { driverID := "", latitude := lat, longitude := lon, isActive := act },
    upsert_geo_self s now
      { driverID := "", latitude := lat, longitude := lon, isActive := act },
    upsert_sets_self s now
      { driverID := "", latitude := lat, longitude := lon, isActive := act }⟩

/-- Witness for `memcheck_error_skips` at a concrete faulty candidate. -/
theorem memcheck_error_skips_witness :
    processOne Store.empty 0 (Fault.mk true false)
        { name := "d1", longitude := 1, latitude := 2, dist := 3 } = none
    ∧ processLocations Store.empty 0 (fun _ => Fault.mk true false)
        [{ name := "d1", longitude := 1, latitude := 2, dist := 3 }]
      = processLocations Store.empty 0 (fun _ => Fault.mk true false) []
    ∧ ∃ l, findNearbyDrivers (fun _ _ _ _ => []) false Store.empty 0
        (fun _ => Fault.mk true false)
        { latitude := 0, longitude := 0, radius := 0, limit := 0 } = Except.ok l :=
  memcheck_error_skips Store.empty 0 (fun _ => Fault.mk true false)
    { name := "d1", longitude := 1, latitude := 2, dist := 3 } []
    (fun _ _ _ _ => [])
    { latitude := 0, longitude := 0, radius := 0, limit := 0 } rfl

/-- C1 counterexample: in `cexStore` the candidate `d1` is active and
its detail record is present and parses, yet the emitted summary carries
the detail record's coordinates (10, 20), not the geo-index's (30, 40):
the claim that the geo-index's coordinates are always used is false. -/
theorem enriched_record_coords_cex :
    getValue cexStore 0 (DriverPrefix ++ cexLoc.name) = some (.driverJson cexDriver)
    ∧ processOne cexStore 0 (Fault.mk false false) cexLoc
        = some (enrichedSummary cexLoc cexDriver)
    ∧ (enrichedSummary cexLoc cexDriver).latitude ≠ cexLoc.latitude
    ∧ (enrichedSummary cexLoc cexDriver).longitude ≠ cexLoc.longitude
    ∧ (enrichedSummary cexLoc cexDriver).latitude = cexDriver.latitude
    ∧ (enrichedSummary cexLoc cexDriver).longitude = cexDriver.longitude
    ∧ (enrichedSummary cexLoc cexDriver).distance = cexLoc.dist := by
  refine ⟨?_, ?_, by decide, by decide, rfl, rfl, rfl⟩ <;> rfl

/-- C1 amended: for every candidate whose detail record is present and
parses successfully, the emitted summary carries the geo-index's
distance, but its coordinates are the ones stored inside the detail
record, not the geo-index's; geo-index coordinates appear only in the
fallback summary. -/
theorem enriched_coords_from_record (s : Store) (now : Nat) (f : Fault)
    (loc : GeoLocation) (v : StoredValue) (d : Driver)
    (hmem : f.memFail = false)
    (hactive : s.sets ActiveSetKey loc.name = true)
    (hget : f.getFail = false)
    (hv : getValue s now (DriverPrefix ++ loc.name) = some v)
    (hd : unmarshalDriver v = some d) :
    processOne s now f loc = some (enrichedSummary loc d)
    ∧ (enrichedSummary loc d).distance = loc.dist
    ∧ (enrichedSummary loc d).latitude = d.latitude
    ∧ (enrichedSummary loc d).longitude = d.longitude
    ∧ (fallbackSummary loc).latitude = loc.latitude
    ∧ (fallbackSummary loc).longitude = loc.longitude := by
  refine ⟨?_, rfl, rfl, rfl, rfl, rfl⟩
  simp [processOne, hmem, hactive, hget, hv, hd]

/-- Witness for `enriched_coords_from_record` on the concrete fixture. -/
theorem enriched_coords_from_record_witness :
    processOne cexStore 0 (Fault.mk false false) cexLoc
      = some (enrichedSummary cexLoc cexDriver)
    ∧ (enrichedSummary cexLoc cexDriver).distance = cexLoc.dist
    ∧ (enrichedSummary cexLoc cexDriver).latitude = cexDriver.latitude
    ∧ (enrichedSummary cexLoc cexDriver).longitude = cexDriver.longitude
    ∧ (fallbackSummary cexLoc).latitude = cexLoc.latitude
    ∧ (fallbackSummary cexLoc).longitude = cexLoc.longitude :=
  enriched_coords_from_record cexStore 0 (Fault.mk false false) cexLoc
    (.driverJson cexDriver) cexDriver rfl (by decide) rfl rfl rfl

/-- C2: a candidate that passed the active-set check is still emitted
when its detail fetch errors, when the record is absent/expired, or when
it fails to parse; the fallback summary carries the geo-index
coordinates and distance and `isActive = true`; and such per-candidate
failures never make the request fail. -/
theorem fallback_on_missing_or_malformed (s : Store) (now : Nat) (f : Fault)
    (loc : GeoLocation)
    (hmem : f.memFail = false)
    (hactive : s.sets ActiveSetKey loc.name = true)
    (hfail : (if f.getFail then none else getValue s now (DriverPrefix ++ loc.name)) = none
      ∨ ∃ v, (if f.getFail then none
              else getValue s now (DriverPrefix ++ loc.name)) = some v
          ∧ unmarshalDriver v = none) :
    processOne s now f loc = some (fallbackSummary loc)
    ∧ (fallbackSummary loc).latitude = loc.latitude
    ∧ (fallbackSummary loc).longitude = loc.longitude
    ∧ (fallbackSummary loc).distance = loc.dist
    ∧ (fallbackSummary loc).isActive = true
    ∧ ∀ (geoRadius : Store → Rat → Rat → GeoRadiusQuery → List GeoLocation)
        (faults : String → Fault) (req : NearbyRequest),
        ∃ l, findNearbyDrivers geoRadius false s now faults req = Except.ok l := by
  refine ⟨?_, rfl, rfl, rfl, rfl, fun geoRadius faults req => ⟨_, rfl⟩⟩
  rcases hfail with hnone | ⟨v, hv, hu⟩
  · simp [processOne, hmem, hactive, hnone]
  · simp [processOne, hmem, hactive, hv, hu]

/-- Witness for `fallback_on_missing_or_malformed`: an active driver
with no detail record at all (`Store.empty` except active set). -/
theorem fallback_on_missing_or_malformed_witness :
    processOne
        { details := fun _ => none, geo := fun _ _ => none,
          sets := fun k m => k == ActiveSetKey && m == "d9" } 0
        (Fault.mk false false)
        { name := "d9", longitude := 7, latitude := 8, dist := 9 }
      = some (fallbackSummary
          { name := "d9", longitude := 7, latitude := 8, dist := 9 })
    ∧ (fallbackSummary { name := "d9", longitude := 7, latitude := 8, dist := 9 }).latitude
        = ({ name := "d9", longitude := 7, latitude := 8, dist := 9 } : GeoLocation).latitude
    ∧ (fallbackSummary { name := "d9", longitude := 7, latitude := 8, dist := 9 }).longitude
        = ({ name := "d9", longitude := 7, latitude := 8, dist := 9 } : GeoLocation).longitude
    ∧ (fallbackSummary { name := "d9", longitude := 7, latitude := 8, dist := 9 }).distance
        = ({ name := "d9", longitude := 7, latitude := 8, dist := 9 } : GeoLocation).dist
    ∧ (fallbackSummary { name := "d9", longitude := 7, latitude := 8, dist := 9 }).isActive
        = true
    ∧ ∀ (geoRadius : Store → Rat → Rat → GeoRadiusQuery → List GeoLocation)
        (faults : String → Fault) (req : NearbyRequest),
        ∃ l, findNearbyDrivers geoRadius false
          { details := fun _ => none, geo := fun _ _ => none,
            sets := fun k m => k == ActiveSetKey && m == "d9" } 0 faults req
          = Except.ok l :=
  fallback_on_missing_or_malformed
    { details := fun _ => none, geo := fun _ _ => none,
      sets := fun k m => k == ActiveSetKey && m == "d9" } 0
    (Fault.mk false false)
    { name := "d9", longitude := 7, latitude := 8, dist := 9 }
    rfl (by decide) (Or.inl rfl)

/-- C8: a read performed at any time `t` before the detail record's
expiry deadline, immediately after an upsert with no intervening writes,
returns a `Driver` with the same id, latitude, longitude and `isActive`
flag as the update. -/
theorem read_after_upsert (s : Store) (u : LocationUpdate) (now t : Nat)
    (h : t < now + 60) :
    getDriver (upsert s now u) t u.driverID = .ok (driverOfUpdate now u)
    ∧ (driverOfUpdate now u).id = u.driverID
    ∧ (driverOfUpdate now u).latitude = u.latitude
    ∧ (driverOfUpdate now u).longitude = u.longitude
    ∧ (driverOfUpdate now u).isActive = u.isActive := by
  refine ⟨?_, rfl, rfl, rfl, rfl⟩
  simp [getDriver, getValue, upsert_details_self s now u, h, unmarshalDriver]

/-- Witness for `read_after_upsert` at a concrete update and time 0. -/
theorem read_after_upsert_witness :
    getDriver (upsert Store.empty 0
        { driverID := "d1", latitude := 1, longitude := 2, isActive := true }) 0 "d1"
      = .ok (driverOfUpdate 0
          { driverID := "d1", latitude := 1, longitude := 2, isActive := true })
    ∧ (driverOfUpdate 0
        { driverID := "d1", latitude := 1, longitude := 2, isActive := true }).id = "d1"
    ∧ (driverOfUpdate 0
        { driverID := "d1", latitude := 1, longitude := 2, isActive := true }).latitude = 1
    ∧ (driverOfUpdate 0
        { driverID := "d1", latitude := 1, longitude := 2, isActive := true }).longitude = 2
    ∧ (driverOfUpdate 0
        { driverID := "d1", latitude := 1, longitude := 2, isActive := true }).isActive
        = true :=
  read_after_upsert Store.empty
    { driverID := "d1", latitude := 1, longitude := 2, isActive := true } 0 0
    (by decide)

/-- C4: under the contract of the delegated geo-index radius search
(ascending distance, at most `count = limit` entries), the list returned
by `queryNearby` is non-decreasing in distance, has at most
`limit` (after defaulting) entries, and its distances form a sublist of
the candidates' distances: filtering and enrichment preserve the
candidates' relative order. -/
theorem results_sorted_capped
    (geoRadius : Store → Rat → Rat → GeoRadiusQuery → List GeoLocation)
    (s : Store) (now : Nat) (faults : String → Fault) (req : NearbyRequest)
    (locs : List GeoLocation) (results : List DriverSummary)
    (hlocs : locs = geoRadius s (defaultedRequest req).longitude
        (defaultedRequest req).latitude (geoOptions (defaultedRequest req)))
    (hsorted : (locs.map GeoLocation.dist).Sorted (· ≤ ·))
    (hcount : (locs.length : Int) ≤ (geoOptions (defaultedRequest req)).count)
    (hres : findNearbyDrivers geoRadius false s now faults req = .ok results) :
    (results.map DriverSummary.distance).Sorted (· ≤ ·)
    ∧ (results.length : Int) ≤ (defaultedRequest req).limit
    ∧ (results.map DriverSummary.distance).Sublist (locs.map GeoLocation.dist) := by
  have hr : results = processLocations s now faults locs := by
    rw [hlocs]
    have := hres
    unfold findNearbyDrivers at this
    simpa using this.symm
  subst hr
  refine ⟨?_, ?_, processLocations_dist_sublist s now faults locs⟩
  · exact List.Pairwise.sublist (processLocations_dist_sublist s now faults locs) hsorted
  · calc ((processLocations s now faults locs).length : Int)
        ≤ (locs.length : Int) := by
          exact_mod_cast processLocations_length_le s now faults locs
      _ ≤ (defaultedRequest req).limit := hcount

/-- Witness for `results_sorted_capped`: a backend returning two sorted
candidates over the empty store (both inactive, so filtered out). -/
theorem results_sorted_capped_witness :
    (((processLocations Store.empty 0 (fun _ => Fault.mk false false)
        [{ name := "a", longitude := 0, latitude := 0, dist := 1 },
         { name := "b", longitude := 0, latitude := 0, dist := 2 }]).map
          DriverSummary.distance).Sorted (· ≤ ·))
    ∧ ((processLocations Store.empty 0 (fun _ => Fault.mk false false)
        [{ name := "a", longitude := 0, latitude := 0, dist := 1 },
         { name := "b", longitude := 0, latitude := 0, dist := 2 }]).length : Int)
        ≤ (defaultedRequest
            { latitude := 0, longitude := 0, radius := 0, limit := 0 }).limit
    ∧ ((processLocations Store.empty 0 (fun _ => Fault.mk false false)
        [{ name := "a", longitude := 0, latitude := 0, dist := 1 },
         { name := "b", longitude := 0, latitude := 0, dist := 2 }]).map
          DriverSummary.distance).Sublist
        ([{ name := "a", longitude := 0, latitude := 0, dist := 1 },
          { name := "b", longitude := 0, latitude := 0, dist := 2 }].map
            GeoLocation.dist) :=
  results_sorted_capped
    (fun _ _ _ _ =>
      [{ name := "a", longitude := 0, latitude := 0, dist := 1 },
       { name := "b", longitude := 0, latitude := 0, dist := 2 }])
    Store.empty 0 (fun _ => Fault.mk false false)
    { latitude := 0, longitude := 0, radius := 0, limit := 0 }
    [{ name := "a", longitude := 0, latitude := 0, dist := 1 },
     { name := "b", longitude := 0, latitude := 0, dist := 2 }]
    (processLocations Store.empty 0 (fun _ => Fault.mk false false)
      [{ name := "a", longitude := 0, latitude := 0, dist := 1 },
       { name := "b", longitude := 0, latitude := 0, dist := 2 }])
    rfl (by decide) (by decide) rfl

/-- C6: a key-expiration notification without the detail-record prefix
is ignored with no state change; one with the prefix is stripped to the
driver id and triggers the batched `ZREM`+`SREM` cleanup, after which
the id is gone from the geo index and the active set while the string
keyspace is untouched; a failed cleanup batch changes nothing and is
only logged; and the listener always continues with the next message. -/
theorem reaper_cleanup (s : Store) (now : Nat) (key : String) :
    (hasPrefixStr key DriverPrefix = false →
      reaperPipeline key = [] ∧ ∀ ef, reaperHandle s now key ef = s)
    ∧ (hasPrefixStr key DriverPrefix = true →
      reaperPipeline key
        = [RedisCmd.zRem GeoSetKey (trimPrefixStr key DriverPrefix),
           RedisCmd.sRem ActiveSetKey (trimPrefixStr key DriverPrefix)]
      ∧ (reaperHandle s now key false).geo GeoSetKey
          (trimPrefixStr key DriverPrefix) = none
      ∧ (reaperHandle s now key false).sets ActiveSetKey
          (trimPrefixStr key DriverPrefix) = false
      ∧ (reaperHandle s now key false).details = s.details
      ∧ reaperHandle s now key true = s)
    ∧ ∀ (msgs : List (Nat × String × Bool)) (m : Nat × String × Bool),
        reaperListen s (m :: msgs)
          = reaperListen (reaperHandle s m.1 m.2.1 m.2.2) msgs := by
  refine ⟨fun hp => ⟨?_, fun ef => ?_⟩, fun hp => ⟨?_, ?_, ?_, ?_, rfl⟩,
    fun msgs m => rfl⟩
  · simp [reaperPipeline, hp]
  · cases ef <;> simp [reaperHandle, reaperPipeline, hp, execPipe]
  · simp [reaperPipeline, hp]
  · simp [reaperHandle, reaperPipeline, hp, execPipe, execCmd]
  · simp [reaperHandle, reaperPipeline, hp, execPipe, execCmd]
  · simp [reaperHandle, reaperPipeline, hp, execPipe, execCmd]

/-- Witness for `reaper_cleanup` at the concrete key `driver:d7` (and,
through the first branch instantiated vacuously, any proof obligations
discharged concretely). -/
theorem reaper_cleanup_witness :
    reaperPipeline "driver:d7"
      = [RedisCmd.zRem GeoSetKey (trimPrefixStr "driver:d7" DriverPrefix),
         RedisCmd.sRem ActiveSetKey (trimPrefixStr "driver:d7" DriverPrefix)]
    ∧ (reaperHandle cexStore 0 "driver:d7" false).sets ActiveSetKey
        (trimPrefixStr "driver:d7" DriverPrefix) = false
    ∧ (reaperHandle cexStore 0 "driver:d7" false).geo GeoSetKey
        (trimPrefixStr "driver:d7" DriverPrefix) = none
    ∧ reaperPipeline "other:k" = [] := by
  have h := (reaper_cleanup cexStore 0 "driver:d7").2.1 (by decide)
  have h2 := ((reaper_cleanup cexStore 0 "other:k").1 (by decide)).1
  exact ⟨h.1, h.2.2.1, h.2.1, h2⟩

/-- C3: in every state reached by running any events after an upsert
whose `isActive` is false, provided no later upsert concerns the same
driver id, that id is absent from the active set, and the candidate
loop of `queryNearby` emits exactly what it would emit with every
candidate of that name removed: the driver appears in no result, for
every query, fault pattern and candidate list. -/
theorem inactive_driver_absent (s0 : Store) (pre post : List Event)
    (u : LocationUpdate) (tu now : Nat) (faults : String → Fault)
    (locs : List GeoLocation)
    (hinact : u.isActive = false)
    (hlast : ∀ e ∈ post, ∀ t u' f, e = Event.upd t u' f → u'.driverID ≠ u.driverID) :
    (run (step (run s0 pre) (Event.upd tu u false)) post).sets ActiveSetKey
        u.driverID = false
    ∧ processLocations (run (step (run s0 pre) (Event.upd tu u false)) post)
        now faults locs
      = processLocations (run (step (run s0 pre) (Event.upd tu u false)) post)
          now faults (locs.filter fun l => l.name != u.driverID) := by
  have hbase : (step (run s0 pre) (Event.upd tu u false)).sets ActiveSetKey
      u.driverID = false := by
    simpa [step, hinact] using upsert_sets_self (run s0 pre) tu u
  have hinv := run_sets_false post _ u.driverID hbase hlast
  exact ⟨hinv, processLocations_drop_name _ now faults locs u.driverID hinv⟩

/-- Witness for `inactive_driver_absent`: driver `d1` reports inactive
from the empty store; the lone geo candidate named `d1` is dropped. -/
theorem inactive_driver_absent_witness :
    (run (step (run Store.empty []) (Event.upd 0
        { driverID := "d1", latitude := 1, longitude := 2, isActive := false }
        false)) []).sets ActiveSetKey "d1" = false
    ∧ processLocations (run (step (run Store.empty []) (Event.upd 0
          { driverID := "d1", latitude := 1, longitude := 2, isActive := false }
          false)) []) 0 (fun _ => Fault.mk false false)
        [{ name := "d1", longitude := 2, latitude := 1, dist := 0 }]
      = processLocations (run (step (run Store.empty []) (Event.upd 0
          { driverID := "d1", latitude := 1, longitude := 2, isActive := false }
          false)) []) 0 (fun _ => Fault.mk false false)
        ([{ name := "d1", longitude := 2, latitude := 1, dist := 0 }].filter
          fun l => l.name != "d1") :=
  inactive_driver_absent Store.empty [] []
    { driverID := "d1", latitude := 1, longitude := 2, isActive := false }
    0 0 (fun _ => Fault.mk false false)
    [{ name := "d1", longitude := 2, latitude := 1, dist := 0 }]
    rfl (fun e he => absurd he (List.not_mem_nil e))

end LocationService
